import Mathlib

/-!
Verification of the Market Profile day-type classifier.

The embedding models the core of the repository:
* `src/day_types.py` — `classify_ib_size` and `classify_day_type` with their
  threshold constants;
* `src/fetch_and_classify.py` — `compute_ib_and_day_metrics`, the per-day
  session-metrics extractor, together with the session-hours filter applied
  by `fetch_day_candles` before the extractor runs.

Prices are modelled as rationals and bar timestamps as minutes past midnight
(the code only ever compares times of day within one fixed timezone).
-/

namespace MarketProfile

/-- IB size threshold from day_types.py: `IB_SMALL_LT = 0.33`. -/
def IB_SMALL_LT : ℚ := 33/100

/-- IB size threshold from day_types.py: `IB_MEDIUM_LE = 1.00`. -/
def IB_MEDIUM_LE : ℚ := 1

/-- Day-type threshold from day_types.py: `IB_RATIO_WIDE = 0.50`. -/
def IB_RATIO_WIDE : ℚ := 50/100

/-- Day-type threshold from day_types.py: `IB_RATIO_VERY_WIDE = 0.80`. -/
def IB_RATIO_VERY_WIDE : ℚ := 80/100

/-- Day-type threshold from day_types.py: `IB_RATIO_TREND_SMALL = 0.25`. -/
def IB_RATIO_TREND_SMALL : ℚ := 25/100

/-- Day-type threshold from day_types.py: `CLOSE_NEAR_EXTREME_LE = 0.15`. -/
def CLOSE_NEAR_EXTREME_LE : ℚ := 15/100

/-- Day-type threshold from day_types.py: `CLOSE_NEAR_MID_LE = 0.30`. -/
def CLOSE_NEAR_MID_LE : ℚ := 30/100

/-- Session open 09:15 IST, in minutes past midnight (fetch_and_classify.py). -/
def MARKET_OPEN : Nat := 9 * 60 + 15

/-- Session close 15:30 IST, in minutes past midnight (fetch_and_classify.py). -/
def MARKET_CLOSE : Nat := 15 * 60 + 30

/-- Initial Balance cutoff 10:15 IST, in minutes past midnight. -/
def IB_END : Nat := 10 * 60 + 15

/-- One intraday bar: time of day plus OHLCV, as in the candle DataFrame. -/
structure Bar where
  time : Nat
  open_ : ℚ
  high : ℚ
  low : ℚ
  close : ℚ
  volume : ℚ
  deriving DecidableEq, Inhabited, Repr

/-- The metrics dict returned by `compute_ib_and_day_metrics`. -/
structure SessionMetrics where
  ib_high : ℚ
  ib_low : ℚ
  ib_range : ℚ
  day_high : ℚ
  day_low : ℚ
  day_range : ℚ
  open_915 : ℚ
  close : ℚ
  re_up : Bool
  re_down : Bool
  ib_pct : ℚ
  ib_ratio : ℚ
  close_pos_mid : ℚ
  close_dist_from_extreme : ℚ
  deriving DecidableEq, Inhabited, Repr

/-- `classify_ib_size` from day_types.py, verbatim guard structure. -/
def classify_ib_size (ib_pct : ℚ) : String :=
  if ib_pct < IB_SMALL_LT then "Small"
  else if ib_pct ≤ IB_MEDIUM_LE then "Medium"
  else "Large"

/-- `classify_day_type` from day_types.py: the ordered guard chain. -/
def classify_day_type (m : SessionMetrics) : String :=
  let ib_ratio := m.ib_ratio
  let re_up := m.re_up
  let re_down := m.re_down
  let close_pos_mid := m.close_pos_mid
  let close_near_extreme := decide (m.close_dist_from_extreme ≤ CLOSE_NEAR_EXTREME_LE)
  if re_up && re_down && decide (close_pos_mid ≤ CLOSE_NEAR_MID_LE) then
    "Neutral Center Day"
  else if re_up && re_down && close_near_extreme then
    "Neutral Extreme Day"
  else if decide (ib_ratio ≥ IB_RATIO_VERY_WIDE) && !re_up && !re_down then
    "Non-trend Day"
  else if decide (ib_ratio ≥ IB_RATIO_WIDE) && !re_up && !re_down then
    "Normal Day"
  else if decide (ib_ratio ≥ IB_RATIO_WIDE) && Bool.xor re_up re_down then
    "Normal Variation Day"
  else if decide (ib_ratio ≤ IB_RATIO_TREND_SMALL) && Bool.xor re_up re_down
      && close_near_extreme then
    "Trend Day"
  else if re_up && re_down then
    "Neutral Center Day"
  else if Bool.xor re_up re_down then
    "Normal Variation Day"
  else
    "Non-trend Day"

/-- The nine-rule ordered table of spec section 4.3, written from the spec's
words (first match wins), to be compared with `classify_day_type`. -/
def spec_day_type_table (m : SessionMetrics) : String :=
  if m.re_up = true ∧ m.re_down = true ∧ m.close_pos_mid ≤ 30/100 then
    "Neutral Center Day"
  else if m.re_up = true ∧ m.re_down = true ∧ m.close_dist_from_extreme ≤ 15/100 then
    "Neutral Extreme Day"
  else if m.ib_ratio ≥ 80/100 ∧ ¬m.re_up = true ∧ ¬m.re_down = true then
    "Non-trend Day"
  else if m.ib_ratio ≥ 50/100 ∧ ¬m.re_up = true ∧ ¬m.re_down = true then
    "Normal Day"
  else if m.ib_ratio ≥ 50/100 ∧ m.re_up ≠ m.re_down then
    "Normal Variation Day"
  else if m.ib_ratio ≤ 25/100 ∧ m.re_up ≠ m.re_down ∧ m.close_dist_from_extreme ≤ 15/100 then
    "Trend Day"
  else if m.re_up = true ∧ m.re_down = true then
    "Neutral Center Day"
  else if m.re_up ≠ m.re_down then
    "Normal Variation Day"
  else
    "Non-trend Day"

/-- Membership of a bar's time in the Initial Balance window
`(times >= MARKET_OPEN) & (times <= IB_END)`. -/
def inIB (b : Bar) : Bool :=
  decide (MARKET_OPEN ≤ b.time) && decide (b.time ≤ IB_END)

/-- Membership of a bar's time in the session window, the filter applied by
`fetch_day_candles`: `(time >= MARKET_OPEN) & (time <= MARKET_CLOSE)`. -/
def inSession (b : Bar) : Bool :=
  decide (MARKET_OPEN ≤ b.time) && decide (b.time ≤ MARKET_CLOSE)

/-- Maximum of a list of rationals (pandas `.max()` on a nonempty column);
the empty case is never reached behind the extractor's emptiness guards. -/
def listMax : List ℚ → ℚ
  | [] => 0
  | x :: xs => xs.foldl max x

/-- Minimum of a list of rationals (pandas `.min()` on a nonempty column). -/
def listMin : List ℚ → ℚ
  | [] => 0
  | x :: xs => xs.foldl min x

/-- The metric computations of `compute_ib_and_day_metrics` (lines 96-130),
run after the two emptiness guards have passed. -/
def mkMetrics (df : List Bar) : SessionMetrics :=
  let ib_bars := df.filter inIB
  let ib_high := listMax (ib_bars.map Bar.high)
  let ib_low := listMin (ib_bars.map Bar.low)
  let ib_range := ib_high - ib_low
  let day_high := listMax (df.map Bar.high)
  let day_low := listMin (df.map Bar.low)
  let day_range := day_high - day_low
  let open_915 :=
    match df.find? (fun b => b.time == MARKET_OPEN) with
    | some b => b.open_
    | none => (df.headD default).open_
  let close := (df.getLastD default).close
  let re_up := decide (day_high > ib_high)
  let re_down := decide (day_low < ib_low)
  { ib_high := ib_high, ib_low := ib_low, ib_range := ib_range,
    day_high := day_high, day_low := day_low, day_range := day_range,
    open_915 := open_915, close := close,
    re_up := re_up, re_down := re_down,
    ib_pct := if open_915 ≠ 0 then ib_range / open_915 * 100 else 0,
    ib_ratio := if day_range ≠ 0 then ib_range / day_range else 0,
    close_pos_mid :=
      if day_range ≠ 0 then |close - (day_high + day_low) / 2| / day_range else 0,
    close_dist_from_extreme :=
      if day_range ≠ 0 then (min (|close - day_low|) (|close - day_high|)) / day_range
      else 1 }

/-- `compute_ib_and_day_metrics` from fetch_and_classify.py: the two
insufficient-data guards, then the metrics record. -/
def compute_ib_and_day_metrics (df : List Bar) : Option SessionMetrics :=
  if df.isEmpty then none
  else if (df.filter inIB).isEmpty then none
  else some (mkMetrics df)

/-- The per-day pipeline as composed in the repository: `fetch_day_candles`
filters the raw candles to session hours, then the extractor runs. -/
def day_pipeline (bars : List Bar) : Option SessionMetrics :=
  compute_ib_and_day_metrics (bars.filter inSession)

/-- Concrete one-bar flat day (09:15, all prices 100) used as a witness input. -/
def dfW4 : List Bar := [⟨555, 100, 100, 100, 100, 0⟩]

/-- Concrete two-bar day with range extension used as a witness input. -/
def dfW5 : List Bar := [⟨555, 100, 101, 99, 100, 0⟩, ⟨700, 102, 103, 98, 102, 0⟩]

/-- Concrete two-bar day with distinct timestamps used as a witness input. -/
def dfW8 : List Bar := [⟨555, 100, 101, 99, 100, 0⟩, ⟨570, 100, 102, 98, 101, 0⟩]

/-- Concrete flat two-bar day (all prices 50) used as a witness input. -/
def dfW9 : List Bar := [⟨555, 50, 50, 50, 50, 0⟩, ⟨600, 50, 50, 50, 50, 0⟩]

/-- Concrete metrics record in the 0.25 < ib_ratio < 0.50 gap with one-sided
extension and a near-extreme close, used as a witness input. -/
def mW7 : SessionMetrics :=
  { ib_high := 103, ib_low := 100, ib_range := 3, day_high := 105, day_low := 95,
    day_range := 10, open_915 := 100, close := 104, re_up := true, re_down := false,
    ib_pct := 3, ib_ratio := 3/10, close_pos_mid := 2/5, close_dist_from_extreme := 1/10 }

/-- Concrete metrics record used as a witness input for field-dependence. -/
def mWX : SessionMetrics :=
  { ib_high := 103, ib_low := 100, ib_range := 3, day_high := 105, day_low := 95,
    day_range := 10, open_915 := 100, close := 104, re_up := true, re_down := false,
    ib_pct := 3, ib_ratio := 6/10, close_pos_mid := 2/5, close_dist_from_extreme := 1/10 }

/-- A second metrics record agreeing with `mWX` on the five fields read by the
classifier and differing everywhere else. -/
def mWY : SessionMetrics :=
  { ib_high := 7, ib_low := 2, ib_range := 5, day_high := 9, day_low := 1,
    day_range := 8, open_915 := 3, close := 6, re_up := true, re_down := false,
    ib_pct := 50, ib_ratio := 6/10, close_pos_mid := 2/5, close_dist_from_extreme := 1/10 }

lemma le_foldl_max (l : List ℚ) (a : ℚ) : a ≤ l.foldl max a := by
  induction l generalizing a with
  | nil => exact le_refl a
  | cons x xs ih =>
    exact le_trans (le_max_left a x) (ih (max a x))

lemma foldl_max_of_mem {b : ℚ} : ∀ {l : List ℚ} (a : ℚ), b ∈ l → b ≤ l.foldl max a := by
  intro l
  induction l with
  | nil => intro a h; cases h
  | cons x xs ih =>
    intro a h
    rcases List.mem_cons.1 h with h | h
    · subst h
      exact le_trans (le_max_right a b) (le_foldl_max xs (max a b))
    · exact ih (max a x) h

lemma foldl_max_cases : ∀ (l : List ℚ) (a : ℚ), l.foldl max a = a ∨ l.foldl max a ∈ l := by
  intro l
  induction l with
  | nil => intro a; exact Or.inl rfl
  | cons x xs ih =>
    intro a
    rcases ih (max a x) with h | h
    · rcases max_choice a x with hm | hm
      · exact Or.inl (by rw [List.foldl_cons, h, hm])
      · exact Or.inr (by rw [List.foldl_cons, h, hm]; exact List.mem_cons_self x xs)
    · exact Or.inr (List.mem_cons_of_mem x h)

lemma le_listMax {l : List ℚ} {b : ℚ} (h : b ∈ l) : b ≤ listMax l := by
  cases l with
  | nil => cases h
  | cons x xs =>
    rcases List.mem_cons.1 h with h | h
    · subst h; exact le_foldl_max xs b
    · exact foldl_max_of_mem x h

lemma listMax_mem {l : List ℚ} (h : l ≠ []) : listMax l ∈ l := by
  cases l with
  | nil => exact absurd rfl h
  | cons x xs =>
    rcases foldl_max_cases xs x with h2 | h2
    · rw [listMax, h2]; exact List.mem_cons_self x xs
    · exact List.mem_cons_of_mem x h2

lemma foldl_min_le (l : List ℚ) (a : ℚ) : l.foldl min a ≤ a := by
  induction l generalizing a with
  | nil => exact le_refl a
  | cons x xs ih =>
    exact le_trans (ih (min a x)) (min_le_left a x)

lemma foldl_min_of_mem {b : ℚ} : ∀ {l : List ℚ} (a : ℚ), b ∈ l → l.foldl min a ≤ b := by
  intro l
  induction l with
  | nil => intro a h; cases h
  | cons x xs ih =>
    intro a h
    rcases List.mem_cons.1 h with h | h
    · subst h
      exact le_trans (foldl_min_le xs (min a b)) (min_le_right a b)
    · exact ih (min a x) h

lemma foldl_min_cases : ∀ (l : List ℚ) (a : ℚ), l.foldl min a = a ∨ l.foldl min a ∈ l := by
  intro l
  induction l with
  | nil => intro a; exact Or.inl rfl
  | cons x xs ih =>
    intro a
    rcases ih (min a x) with h | h
    · rcases min_choice a x with hm | hm
      · exact Or.inl (by rw [List.foldl_cons, h, hm])
      · exact Or.inr (by rw [List.foldl_cons, h, hm]; exact List.mem_cons_self x xs)
    · exact Or.inr (List.mem_cons_of_mem x h)

lemma listMin_le {l : List ℚ} {b : ℚ} (h : b ∈ l) : listMin l ≤ b := by
  cases l with
  | nil => cases h
  | cons x xs =>
    rcases List.mem_cons.1 h with h | h
    · subst h; exact foldl_min_le xs b
    · exact foldl_min_of_mem x h

lemma listMin_mem {l : List ℚ} (h : l ≠ []) : listMin l ∈ l := by
  cases l with
  | nil => exact absurd rfl h
  | cons x xs =>
    rcases foldl_min_cases xs x with h2 | h2
    · rw [listMin, h2]; exact List.mem_cons_self x xs
    · exact List.mem_cons_of_mem x h2

lemma getLastD_mem : ∀ (l : List Bar) (d : Bar), l ≠ [] → l.getLastD d ∈ l
  | [], _, h => absurd rfl h
  | [x], _, _ => by simp
  | x :: y :: t, d, _ => by
    have : (y :: t).getLastD x ∈ y :: t := getLastD_mem (y :: t) x (by simp)
    simpa using Or.inr this

lemma compute_eq_some {df : List Bar} {m : SessionMetrics}
    (hc : compute_ib_and_day_metrics df = some m) :
    df ≠ [] ∧ df.filter inIB ≠ [] ∧ m = mkMetrics df := by
  unfold compute_ib_and_day_metrics at hc
  by_cases h : df.isEmpty = true
  · rw [if_pos h] at hc; cases hc
  · rw [if_neg h] at hc
    by_cases h2 : (df.filter inIB).isEmpty = true
    · rw [if_pos h2] at hc; cases hc
    · rw [if_neg h2] at hc
      exact ⟨by simpa [List.isEmpty_iff] using h,
        by simpa [List.isEmpty_iff] using h2, (Option.some.inj hc).symm⟩

lemma compute_some_of {df : List Bar} (h1 : df ≠ []) (h2 : df.filter inIB ≠ []) :
    compute_ib_and_day_metrics df = some (mkMetrics df) := by
  unfold compute_ib_and_day_metrics
  rw [if_neg (by simpa [List.isEmpty_iff] using h1),
    if_neg (by simpa [List.isEmpty_iff] using h2)]

lemma mk_ib_high (df : List Bar) :
    (mkMetrics df).ib_high = listMax ((df.filter inIB).map Bar.high) := rfl

lemma mk_ib_low (df : List Bar) :
    (mkMetrics df).ib_low = listMin ((df.filter inIB).map Bar.low) := rfl

lemma mk_day_high (df : List Bar) :
    (mkMetrics df).day_high = listMax (df.map Bar.high) := rfl

lemma mk_day_low (df : List Bar) :
    (mkMetrics df).day_low = listMin (df.map Bar.low) := rfl

lemma mk_ib_range (df : List Bar) :
    (mkMetrics df).ib_range = (mkMetrics df).ib_high - (mkMetrics df).ib_low := rfl

lemma mk_day_range (df : List Bar) :
    (mkMetrics df).day_range = (mkMetrics df).day_high - (mkMetrics df).day_low := rfl

lemma mk_close (df : List Bar) :
    (mkMetrics df).close = (df.getLastD default).close := rfl

lemma mk_re_up (df : List Bar) :
    (mkMetrics df).re_up = decide ((mkMetrics df).day_high > (mkMetrics df).ib_high) := rfl

lemma mk_re_down (df : List Bar) :
    (mkMetrics df).re_down = decide ((mkMetrics df).day_low < (mkMetrics df).ib_low) := rfl

lemma mk_ib_pct (df : List Bar) :
    (mkMetrics df).ib_pct =
      if (mkMetrics df).open_915 ≠ 0
      then (mkMetrics df).ib_range / (mkMetrics df).open_915 * 100 else 0 := rfl

lemma mk_ib_ratio (df : List Bar) :
    (mkMetrics df).ib_ratio =
      if (mkMetrics df).day_range ≠ 0
      then (mkMetrics df).ib_range / (mkMetrics df).day_range else 0 := rfl

lemma mk_close_pos_mid (df : List Bar) :
    (mkMetrics df).close_pos_mid =
      if (mkMetrics df).day_range ≠ 0
      then |(mkMetrics df).close - ((mkMetrics df).day_high + (mkMetrics df).day_low) / 2| /
        (mkMetrics df).day_range
      else 0 := rfl

lemma mk_close_dist (df : List Bar) :
    (mkMetrics df).close_dist_from_extreme =
      if (mkMetrics df).day_range ≠ 0
      then (min (|(mkMetrics df).close - (mkMetrics df).day_low|)
        (|(mkMetrics df).close - (mkMetrics df).day_high|)) / (mkMetrics df).day_range
      else 1 := rfl

lemma ib_high_le_day_high (df : List Bar) (hIB : df.filter inIB ≠ []) :
    (mkMetrics df).ib_high ≤ (mkMetrics df).day_high := by
  rw [mk_ib_high, mk_day_high]
  have hmem := listMax_mem (l := (df.filter inIB).map Bar.high) (by simpa using hIB)
  obtain ⟨b, hb, heq⟩ := List.mem_map.1 hmem
  rw [← heq]
  exact le_listMax (List.mem_map_of_mem _ (List.mem_of_mem_filter hb))

lemma day_low_le_ib_low (df : List Bar) (hIB : df.filter inIB ≠ []) :
    (mkMetrics df).day_low ≤ (mkMetrics df).ib_low := by
  rw [mk_ib_low, mk_day_low]
  have hmem := listMin_mem (l := (df.filter inIB).map Bar.low) (by simpa using hIB)
  obtain ⟨b, hb, heq⟩ := List.mem_map.1 hmem
  rw [← heq]
  exact listMin_le (List.mem_map_of_mem _ (List.mem_of_mem_filter hb))

lemma ib_low_le_ib_high (df : List Bar) (hIB : df.filter inIB ≠ [])
    (hlh : ∀ b ∈ df, b.low ≤ b.high) :
    (mkMetrics df).ib_low ≤ (mkMetrics df).ib_high := by
  rw [mk_ib_low, mk_ib_high]
  obtain ⟨b, hb⟩ := List.exists_mem_of_ne_nil _ hIB
  calc listMin ((df.filter inIB).map Bar.low) ≤ b.low :=
        listMin_le (List.mem_map_of_mem _ hb)
    _ ≤ b.high := hlh b (List.mem_of_mem_filter hb)
    _ ≤ listMax ((df.filter inIB).map Bar.high) :=
        le_listMax (List.mem_map_of_mem _ hb)

lemma close_mem_bounds (df : List Bar) (hdf : df ≠ [])
    (hcl : ∀ b ∈ df, b.low ≤ b.close ∧ b.close ≤ b.high) :
    (mkMetrics df).day_low ≤ (mkMetrics df).close ∧
      (mkMetrics df).close ≤ (mkMetrics df).day_high := by
  rw [mk_close, mk_day_low, mk_day_high]
  have hb : df.getLastD default ∈ df := getLastD_mem df default hdf
  constructor
  · exact le_trans (listMin_le (List.mem_map_of_mem _ hb)) (hcl _ hb).1
  · exact le_trans (hcl _ hb).2 (le_listMax (List.mem_map_of_mem _ hb))

lemma find?_open_eq_some {df : List Bar} {b : Bar}
    (hded : df.Pairwise (fun a c => a.time ≠ c.time))
    (hb : b ∈ df) (ht : b.time = MARKET_OPEN) :
    df.find? (fun x => x.time == MARKET_OPEN) = some b := by
  induction df with
  | nil => cases hb
  | cons x xs ih =>
    rcases List.mem_cons.1 hb with h | h
    · subst h
      exact List.find?_cons_of_pos _ (by simp [ht])
    · have hx : x.time ≠ MARKET_OPEN := by
        have := (List.pairwise_cons.1 hded).1 b h
        rw [ht] at this; exact this
      rw [List.find?_cons_of_neg _ (by simp [hx])]
      exact ih (List.pairwise_cons.1 hded).2 h

lemma mk_open_915 (df : List Bar) :
    (mkMetrics df).open_915 =
      match df.find? (fun x => x.time == MARKET_OPEN) with
      | some b => b.open_
      | none => (df.headD default).open_ := rfl

/-- Claim C1: `classify_day_type` agrees with the nine-rule ordered table of
spec section 4.3 (first match wins) on every SessionMetrics record, and its
result is always one of the six day-type labels. -/
theorem spec_C1 (m : SessionMetrics) :
    classify_day_type m = spec_day_type_table m ∧
    (classify_day_type m = "Normal Day" ∨ classify_day_type m = "Normal Variation Day" ∨
     classify_day_type m = "Trend Day" ∨ classify_day_type m = "Neutral Center Day" ∨
     classify_day_type m = "Neutral Extreme Day" ∨ classify_day_type m = "Non-trend Day") := by
  constructor
  · cases hu : m.re_up <;> cases hd : m.re_down <;>
      simp [classify_day_type, spec_day_type_table, hu, hd,
        IB_RATIO_WIDE, IB_RATIO_VERY_WIDE, IB_RATIO_TREND_SMALL,
        CLOSE_NEAR_EXTREME_LE, CLOSE_NEAR_MID_LE]
  · simp only [classify_day_type]
    repeat' split
    all_goals simp

/-- Claim C2: `classify_ib_size` partitions the rational line into exactly the
three bands Small (below 0.33), Medium (0.33 to 1.00 inclusive) and Large
(above 1.00), with no gap or overlap; in particular both boundaries 0.33 and
1.00 classify as Medium. -/
theorem spec_C2 (q : ℚ) :
    (classify_ib_size q = "Small" ↔ q < 33/100) ∧
    (classify_ib_size q = "Medium" ↔ 33/100 ≤ q ∧ q ≤ 1) ∧
    (classify_ib_size q = "Large" ↔ 1 < q) := by
  unfold classify_ib_size IB_SMALL_LT IB_MEDIUM_LE
  split
  · rename_i h
    refine ⟨by simp [h], ?_, ?_⟩
    · simp only [false_iff, show ("Small" = "Medium") = False by simp]
      rintro ⟨h1, -⟩; linarith
    · simp only [false_iff, show ("Small" = "Large") = False by simp]
      linarith
  · rename_i h
    split
    · rename_i h2
      refine ⟨?_, by simp [not_lt.1 h, h2], ?_⟩
      · simp only [false_iff, show ("Medium" = "Small") = False by simp]
        exact h
      · simp only [false_iff, show ("Medium" = "Large") = False by simp]
        linarith
    · rename_i h2
      refine ⟨?_, ?_, by simp [not_le.1 h2]⟩
      · simp only [false_iff, show ("Large" = "Small") = False by simp]
        exact h
      · simp only [false_iff, show ("Large" = "Medium") = False by simp]
        rintro ⟨-, h1⟩; exact h2 h1

/-- Claim C3: the extractor returns the none sentinel exactly when the bar
list is empty or no bar's time lies in the Initial Balance window
`[MARKET_OPEN, IB_END]`; in every other case it returns a metrics record. -/
theorem spec_C3 (df : List Bar) :
    compute_ib_and_day_metrics df = none ↔
      (df = [] ∨ ∀ b ∈ df, ¬(MARKET_OPEN ≤ b.time ∧ b.time ≤ IB_END)) := by
  unfold compute_ib_and_day_metrics
  simp only [List.isEmpty_iff]
  by_cases h : df = []
  · simp [h]
  · rw [if_neg h]
    by_cases h2 : df.filter inIB = []
    · rw [if_pos h2]
      simp only [true_iff]
      refine Or.inr fun b hb hc => ?_
      have hm := List.filter_eq_nil_iff.1 h2 b hb
      simp [inIB, hc.1, hc.2] at hm
    · rw [if_neg h2]
      simp only [show (some (mkMetrics df) = none) ↔ False from by simp, false_iff]
      push_neg
      refine ⟨h, ?_⟩
      have h3 := h2
      rw [List.filter_eq_nil_iff] at h3
      push_neg at h3
      obtain ⟨b, hb, hIB⟩ := h3
      exact ⟨b, hb, by simpa [inIB] using hIB⟩

/-- Claim C4: for every metrics record the extractor produces from physically
valid bars, a zero day range forces `ib_pct = 0`, `ib_ratio = 0`,
`close_pos_mid = 0` and `close_dist_from_extreme = 1` (the asymmetric
degenerate-range convention), including `ib_pct = 0` even though the code's
`ib_pct` guard tests `open_915` rather than `day_range`. -/
theorem spec_C4 (df : List Bar) (m : SessionMetrics)
    (hc : compute_ib_and_day_metrics df = some m)
    (hlh : ∀ b ∈ df, b.low ≤ b.high) (h0 : m.day_range = 0) :
    m.ib_pct = 0 ∧ m.ib_ratio = 0 ∧ m.close_pos_mid = 0 ∧ m.close_dist_from_extreme = 1 := by
  obtain ⟨hdf, hIB, rfl⟩ := compute_eq_some hc
  have h1 := ib_high_le_day_high df hIB
  have h2 := day_low_le_ib_low df hIB
  have h3 := ib_low_le_ib_high df hIB hlh
  have hdr : (mkMetrics df).day_high - (mkMetrics df).day_low = 0 := by
    rw [← mk_day_range]; exact h0
  have hibr : (mkMetrics df).ib_range = 0 := by
    rw [mk_ib_range]; linarith
  refine ⟨?_, ?_, ?_, ?_⟩
  · rw [mk_ib_pct, hibr]
    by_cases ho : (mkMetrics df).open_915 = 0 <;> simp [ho]
  · rw [mk_ib_ratio, h0]; simp
  · rw [mk_close_pos_mid, h0]; simp
  · rw [mk_close_dist, h0]; simp

/-- Witness for C4: a one-bar flat day at 09:15 satisfies the hypotheses and
exhibits the degenerate-range conventions. -/
theorem spec_C4_witness :
    compute_ib_and_day_metrics dfW4 = some (mkMetrics dfW4) ∧
    (mkMetrics dfW4).day_range = 0 ∧
    ((mkMetrics dfW4).ib_pct = 0 ∧ (mkMetrics dfW4).ib_ratio = 0 ∧
     (mkMetrics dfW4).close_pos_mid = 0 ∧ (mkMetrics dfW4).close_dist_from_extreme = 1) :=
  ⟨compute_some_of (by simp [dfW4]) (by simp [dfW4, inIB, MARKET_OPEN, IB_END]),
   by rw [mk_day_range, mk_day_high, mk_day_low]; norm_num [dfW4, listMax, listMin],
   spec_C4 dfW4 (mkMetrics dfW4)
     (compute_some_of (by simp [dfW4]) (by simp [dfW4, inIB, MARKET_OPEN, IB_END]))
     (by norm_num [dfW4])
     (by rw [mk_day_range, mk_day_high, mk_day_low]; norm_num [dfW4, listMax, listMin])⟩

/-- Claim C5: for metrics produced by the extractor from bars satisfying the
physical OHLC invariant, the IB range is nonnegative and bounded by the day
range, `ib_ratio` lies in `[0,1]`, and on a day with positive range both
`close_pos_mid` and `close_dist_from_extreme` lie in `[0,1]`. -/
theorem spec_C5 (df : List Bar) (m : SessionMetrics)
    (hc : compute_ib_and_day_metrics df = some m)
    (hphys : ∀ b ∈ df, b.low ≤ b.open_ ∧ b.open_ ≤ b.high ∧ b.low ≤ b.close ∧ b.close ≤ b.high) :
    (0 ≤ m.ib_range ∧ m.ib_range ≤ m.day_range) ∧
    (0 ≤ m.ib_ratio ∧ m.ib_ratio ≤ 1) ∧
    (0 < m.day_range →
      (0 ≤ m.close_pos_mid ∧ m.close_pos_mid ≤ 1) ∧
      (0 ≤ m.close_dist_from_extreme ∧ m.close_dist_from_extreme ≤ 1)) := by
  obtain ⟨hdf, hIB, rfl⟩ := compute_eq_some hc
  have hlh : ∀ b ∈ df, b.low ≤ b.high := fun b hb =>
    le_trans (hphys b hb).1 (hphys b hb).2.1
  have hcl : ∀ b ∈ df, b.low ≤ b.close ∧ b.close ≤ b.high := fun b hb =>
    ⟨(hphys b hb).2.2.1, (hphys b hb).2.2.2⟩
  have h1 := ib_high_le_day_high df hIB
  have h2 := day_low_le_ib_low df hIB
  have h3 := ib_low_le_ib_high df hIB hlh
  have hr0 : 0 ≤ (mkMetrics df).ib_range := by rw [mk_ib_range]; linarith
  have hrle : (mkMetrics df).ib_range ≤ (mkMetrics df).day_range := by
    rw [mk_ib_range, mk_day_range]; linarith
  refine ⟨⟨hr0, hrle⟩, ?_, ?_⟩
  · rw [mk_ib_ratio]
    by_cases hd : (mkMetrics df).day_range = 0
    · simp [hd]
    · have hdpos : 0 < (mkMetrics df).day_range :=
        lt_of_le_of_ne (le_trans hr0 hrle) (Ne.symm hd)
      rw [if_pos hd]
      exact ⟨div_nonneg hr0 (le_of_lt hdpos), (div_le_one hdpos).2 hrle⟩
  · intro hdpos
    have hd : (mkMetrics df).day_range ≠ 0 := ne_of_gt hdpos
    obtain ⟨hcl1, hcl2⟩ := close_mem_bounds df hdf hcl
    have hdr : (mkMetrics df).day_range =
        (mkMetrics df).day_high - (mkMetrics df).day_low := mk_day_range df
    constructor
    · rw [mk_close_pos_mid, if_pos hd]
      refine ⟨div_nonneg (abs_nonneg _) (le_of_lt hdpos), (div_le_one hdpos).2 ?_⟩
      rw [abs_le]
      constructor <;> linarith
    · rw [mk_close_dist, if_pos hd]
      refine ⟨div_nonneg (le_min (abs_nonneg _) (abs_nonneg _)) (le_of_lt hdpos),
        (div_le_one hdpos).2 ?_⟩
      have habs : |(mkMetrics df).close - (mkMetrics df).day_low| =
          (mkMetrics df).close - (mkMetrics df).day_low := abs_of_nonneg (by linarith)
      calc (min (|(mkMetrics df).close - (mkMetrics df).day_low|)
            (|(mkMetrics df).close - (mkMetrics df).day_high|))
          ≤ |(mkMetrics df).close - (mkMetrics df).day_low| := min_le_left _ _
        _ ≤ (mkMetrics df).day_range := by rw [habs]; linarith

/-- Witness for C5: a concrete two-bar day with two-sided extension satisfies
the physical invariant and exhibits the range and ratio bounds. -/
theorem spec_C5_witness :
    compute_ib_and_day_metrics dfW5 = some (mkMetrics dfW5) ∧
    ((0 ≤ (mkMetrics dfW5).ib_range ∧ (mkMetrics dfW5).ib_range ≤ (mkMetrics dfW5).day_range) ∧
     (0 ≤ (mkMetrics dfW5).ib_ratio ∧ (mkMetrics dfW5).ib_ratio ≤ 1) ∧
     (0 < (mkMetrics dfW5).day_range →
       (0 ≤ (mkMetrics dfW5).close_pos_mid ∧ (mkMetrics dfW5).close_pos_mid ≤ 1) ∧
       (0 ≤ (mkMetrics dfW5).close_dist_from_extreme ∧
        (mkMetrics dfW5).close_dist_from_extreme ≤ 1))) :=
  ⟨compute_some_of (by simp [dfW5]) (by simp [dfW5, inIB, MARKET_OPEN, IB_END]),
   spec_C5 dfW5 (mkMetrics dfW5)
     (compute_some_of (by simp [dfW5]) (by simp [dfW5, inIB, MARKET_OPEN, IB_END]))
     (by norm_num [dfW5])⟩

/-- Claim C6: the pipeline filters bars to session hours before any
aggregation, so out-of-session bars never affect the resulting metrics:
running the pipeline on a raw sequence equals running it on the sequence
restricted to session hours. -/
theorem spec_C6 (bars : List Bar) :
    day_pipeline bars = day_pipeline (bars.filter inSession) := by
  simp [day_pipeline, List.filter_filter]

/-- Claim C7: in the threshold gap 0.25 < ib_ratio < 0.50, a one-sided
extension with a near-extreme close classifies as Normal Variation Day via
fallback rule 8, never as any Trend variant. -/
theorem spec_C7 (m : SessionMetrics)
    (hlo : 1/4 < m.ib_ratio) (hhi : m.ib_ratio < 1/2)
    (hx : Bool.xor m.re_up m.re_down = true)
    (hce : m.close_dist_from_extreme ≤ 15/100) :
    classify_day_type m = "Normal Variation Day" := by
  cases hu : m.re_up <;> cases hd : m.re_down <;> rw [hu, hd] at hx <;>
    simp_all [classify_day_type, IB_RATIO_WIDE, IB_RATIO_VERY_WIDE,
      IB_RATIO_TREND_SMALL, CLOSE_NEAR_EXTREME_LE, CLOSE_NEAR_MID_LE]
  all_goals intro h
  all_goals linarith

/-- Witness for C7: a concrete record with ib_ratio = 0.30, upside-only
extension and close within 0.10 of an extreme is a Normal Variation Day. -/
theorem spec_C7_witness :
    (1/4 < mW7.ib_ratio ∧ mW7.ib_ratio < 1/2 ∧ Bool.xor mW7.re_up mW7.re_down = true ∧
     mW7.close_dist_from_extreme ≤ 15/100) ∧
    classify_day_type mW7 = "Normal Variation Day" :=
  ⟨⟨by norm_num [mW7], by norm_num [mW7], by simp [mW7], by norm_num [mW7]⟩,
   spec_C7 mW7 (by norm_num [mW7]) (by norm_num [mW7]) (by simp [mW7]) (by norm_num [mW7])⟩

/-- Claim C8: for every bar list the extractor accepts, with timestamps
deduplicated as the data model assumes, `open_915` is the open of the bar at
the session's opening timestamp when one exists and the first bar's open
otherwise, and `close` is the close of the last bar. -/
theorem spec_C8 (df : List Bar) (m : SessionMetrics)
    (hc : compute_ib_and_day_metrics df = some m)
    (hded : df.Pairwise (fun a c => a.time ≠ c.time)) :
    (∀ b ∈ df, b.time = MARKET_OPEN → m.open_915 = b.open_) ∧
    ((∀ b ∈ df, b.time ≠ MARKET_OPEN) → ∃ b0 t, df = b0 :: t ∧ m.open_915 = b0.open_) ∧
    (∀ lb, df.getLast? = some lb → m.close = lb.close) := by
  obtain ⟨hdf, hIB, rfl⟩ := compute_eq_some hc
  refine ⟨?_, ?_, ?_⟩
  · intro b hb ht
    rw [mk_open_915, find?_open_eq_some hded hb ht]
  · intro hnone
    have hfind : df.find? (fun x => x.time == MARKET_OPEN) = none := by
      rw [List.find?_eq_none]
      intro b hb
      simpa using hnone b hb
    cases df with
    | nil => exact absurd rfl hdf
    | cons b0 t =>
      refine ⟨b0, t, rfl, ?_⟩
      rw [mk_open_915, hfind]
      rfl
  · intro lb hlast
    rw [mk_close]
    have hl : df.getLastD default = lb := by
      rw [List.getLastD_eq_getLast?, hlast]
      rfl
    rw [hl]

/-- Witness for C8: on a concrete two-bar day whose first bar sits exactly at
09:15, `open_915` is that bar's open and `close` is the second bar's close. -/
theorem spec_C8_witness :
    compute_ib_and_day_metrics dfW8 = some (mkMetrics dfW8) ∧
    (mkMetrics dfW8).open_915 = (Bar.mk 555 100 101 99 100 0).open_ ∧
    (mkMetrics dfW8).close = (Bar.mk 570 100 102 98 101 0).close :=
  ⟨compute_some_of (by simp [dfW8]) (by simp [dfW8, inIB, MARKET_OPEN, IB_END]),
   (spec_C8 dfW8 (mkMetrics dfW8)
       (compute_some_of (by simp [dfW8]) (by simp [dfW8, inIB, MARKET_OPEN, IB_END]))
       (by simp [dfW8])).1
     (Bar.mk 555 100 101 99 100 0) (by simp [dfW8]) rfl,
   (spec_C8 dfW8 (mkMetrics dfW8)
       (compute_some_of (by simp [dfW8]) (by simp [dfW8, inIB, MARKET_OPEN, IB_END]))
       (by simp [dfW8])).2.2
     (Bar.mk 570 100 102 98 101 0) (by rw [dfW8]; rfl)⟩

/-- Claim C9: a motionless day (zero day range, physically valid bars) has no
range extension and zero ib_ratio, so every rule before the final fallback
fails and the classifier returns Non-trend Day. -/
theorem spec_C9 (df : List Bar) (m : SessionMetrics)
    (hc : compute_ib_and_day_metrics df = some m)
    (hlh : ∀ b ∈ df, b.low ≤ b.high) (h0 : m.day_range = 0) :
    classify_day_type m = "Non-trend Day" := by
  obtain ⟨hdf, hIB, rfl⟩ := compute_eq_some hc
  have h1 := ib_high_le_day_high df hIB
  have h2 := day_low_le_ib_low df hIB
  have h3 := ib_low_le_ib_high df hIB hlh
  have hdr : (mkMetrics df).day_high - (mkMetrics df).day_low = 0 := by
    rw [← mk_day_range]; exact h0
  have hup : (mkMetrics df).re_up = false := by
    rw [mk_re_up, decide_eq_false_iff_not]
    exact not_lt.2 (by linarith)
  have hdn : (mkMetrics df).re_down = false := by
    rw [mk_re_down, decide_eq_false_iff_not]
    exact not_lt.2 (by linarith)
  have hir : (mkMetrics df).ib_ratio = 0 := by rw [mk_ib_ratio, h0]; simp
  simp [classify_day_type, hup, hdn, hir, IB_RATIO_WIDE, IB_RATIO_VERY_WIDE,
    IB_RATIO_TREND_SMALL]

/-- Witness for C9: a concrete flat two-bar day is classified Non-trend Day. -/
theorem spec_C9_witness :
    compute_ib_and_day_metrics dfW9 = some (mkMetrics dfW9) ∧
    (mkMetrics dfW9).day_range = 0 ∧
    classify_day_type (mkMetrics dfW9) = "Non-trend Day" :=
  ⟨compute_some_of (by simp [dfW9]) (by simp [dfW9, inIB, MARKET_OPEN, IB_END]),
   by rw [mk_day_range, mk_day_high, mk_day_low]; norm_num [dfW9, listMax, listMin],
   spec_C9 dfW9 (mkMetrics dfW9)
     (compute_some_of (by simp [dfW9]) (by simp [dfW9, inIB, MARKET_OPEN, IB_END]))
     (by norm_num [dfW9])
     (by rw [mk_day_range, mk_day_high, mk_day_low]; norm_num [dfW9, listMax, listMin])⟩

/-- Claim C10: the classifier reads only `ib_ratio`, `re_up`, `re_down`,
`close_pos_mid` and `close_dist_from_extreme`; any two records agreeing on
those five fields receive the same label. -/
theorem spec_C10 (m1 m2 : SessionMetrics)
    (h1 : m1.ib_ratio = m2.ib_ratio) (h2 : m1.re_up = m2.re_up)
    (h3 : m1.re_down = m2.re_down) (h4 : m1.close_pos_mid = m2.close_pos_mid)
    (h5 : m1.close_dist_from_extreme = m2.close_dist_from_extreme) :
    classify_day_type m1 = classify_day_type m2 := by
  simp only [classify_day_type, h1, h2, h3, h4, h5]

/-- Witness for C10: two concrete records agreeing on the five classifier
inputs but differing on every other field receive the same label. -/
theorem spec_C10_witness :
    (mWX.ib_ratio = mWY.ib_ratio ∧ mWX.re_up = mWY.re_up ∧ mWX.re_down = mWY.re_down ∧
     mWX.close_pos_mid = mWY.close_pos_mid ∧
     mWX.close_dist_from_extreme = mWY.close_dist_from_extreme ∧ mWX.ib_high ≠ mWY.ib_high) ∧
    classify_day_type mWX = classify_day_type mWY :=
  ⟨⟨rfl, rfl, rfl, rfl, rfl, by norm_num [mWX, mWY]⟩,
   spec_C10 mWX mWY rfl rfl rfl rfl rfl⟩

end MarketProfile
